import Mathlib

/-!
Shallow embedding of the pdf-summarizer core (caching, ingestion pipeline,
retention/cleanup, download route) and proofs of the specification claims.

The embedding follows `src/pdf_summarizer/routes.py`, `cleanup.py`,
`claude_service.py`, `utils.py` and `models.py`.  The relational store is a
pair of lists (uploads, summaries); the upload directory is a list of
(path, size) pairs; the external collaborators (content hasher, PDF text
extraction, the Claude API) are oracles carried in an `Env` record, and every
call to the extraction or summarization collaborator is recorded in a log so
that "zero calls" claims are expressible.  Timestamps are integers (seconds,
UTC); `timedelta(days = n)` is `n * 86400`.
-/

namespace PdfSummarizer

/-- Row of the `upload` table (`models.py`, class `Upload`). -/
structure Upload where
  id : Nat
  filename : String
  original_filename : String
  file_path : String
  file_hash : String
  session_id : String
  upload_date : Int
  file_size : Nat
  is_cached : Bool
deriving Repr, DecidableEq

/-- Row of the `summary` table (`models.py`, class `Summary`). -/
structure Summary where
  id : Nat
  upload_id : Nat
  prompt_template_id : Option Nat
  summary_text : String
  created_date : Int
  page_count : Nat
  char_count : Nat
deriving Repr, DecidableEq

/-- The relational store: the two tables the claims are about, plus the
auto-increment counters that hand out primary keys on insert. -/
structure DB where
  uploads : List Upload
  summaries : List Summary
  nextUploadId : Nat
  nextSummaryId : Nat
deriving Repr, DecidableEq

/-- The `upload.summaries` relationship: all summary rows whose `upload_id`
references the given upload id, in insertion order. -/
def summariesOf (db : DB) (uid : Nat) : List Summary :=
  db.summaries.filter (fun s => s.upload_id == uid)

/-- Loop body of `check_cache` (routes.py lines 70-74): walk the uploads whose
hash matched; for each, if `upload.summaries` is non-empty look at
`upload.summaries[0]` only, and return the upload when that first summary's
`prompt_template_id` equals the requested one. -/
def check_cacheAux (db : DB) (tid : Option Nat) : List Upload → Option Upload
  | [] => none
  | u :: rest =>
    match summariesOf db u.id with
    | [] => check_cacheAux db tid rest
    | s :: _ => if s.prompt_template_id = tid then some u else check_cacheAux db tid rest

/-- The function `check_cache(file_hash, prompt_template_id)` of routes.py
lines 55-76: filter uploads by `file_hash`, then scan for one whose first
summary carries the requested prompt template id. -/
def check_cache (db : DB) (file_hash : String) (tid : Option Nat) : Option Upload :=
  check_cacheAux db tid (db.uploads.filter (fun u => u.file_hash == file_hash))

/-- When `check_cacheAux` returns an upload, that upload comes from the
scanned list and its first summary matches the requested template id. -/
theorem check_cacheAux_some {db : DB} {tid : Option Nat} {l : List Upload} {u : Upload}
    (h : check_cacheAux db tid l = some u) :
    u ∈ l ∧ ∃ s rest, summariesOf db u.id = s :: rest ∧ s.prompt_template_id = tid := by
  induction l with
  | nil => simp [check_cacheAux] at h
  | cons v l ih =>
    rw [check_cacheAux] at h
    split at h
    · rcases ih h with ⟨hmem, hrest⟩
      exact ⟨List.mem_cons_of_mem _ hmem, hrest⟩
    · rename_i s rest hs
      by_cases htid : s.prompt_template_id = tid
      · rw [if_pos htid] at h
        cases h
        exact ⟨List.mem_cons_self _ _, s, rest, hs, htid⟩
      · rw [if_neg htid] at h
        rcases ih h with ⟨hmem, hrest⟩
        exact ⟨List.mem_cons_of_mem _ hmem, hrest⟩

/-- If the scanned list contains an upload whose first summary matches, the
scan does not come back empty. -/
theorem check_cacheAux_ne_none {db : DB} {tid : Option Nat} {l : List Upload} {u : Upload}
    (hu : u ∈ l) {s : Summary} {rest : List Summary}
    (hs : summariesOf db u.id = s :: rest) (htid : s.prompt_template_id = tid) :
    check_cacheAux db tid l ≠ none := by
  induction l with
  | nil => simp at hu
  | cons v l ih =>
    rw [check_cacheAux]
    rcases List.mem_cons.mp hu with rfl | hmem
    · split
      · rename_i heq
        rw [hs] at heq
        exact absurd heq (by simp)
      · rename_i s2 rest2 heq
        rw [hs] at heq
        injection heq with h1 h2
        subst h1
        rw [if_pos htid]
        simp
    · split
      · exact ih hmem
      · rename_i s2 rest2 heq
        by_cases h3 : s2.prompt_template_id = tid
        · rw [if_pos h3]; simp
        · rw [if_neg h3]; exact ih hmem

/-- C4: `check_cache` returns `none` or an upload whose content digest equals
the requested digest and whose summary list is non-empty and contains a
summary for the requested template; an upload with an empty summary list is
never returned.  (It is read-only by construction: its type returns no
updated store.) -/
theorem c4_check_cache_hit_shape (db : DB) (h : String) (tid : Option Nat) (u : Upload)
    (hhit : check_cache db h tid = some u) :
    u ∈ db.uploads ∧ u.file_hash = h ∧ summariesOf db u.id ≠ [] ∧
      ∃ s ∈ summariesOf db u.id, s.prompt_template_id = tid := by
  rcases check_cacheAux_some hhit with ⟨hmem, s, rest, hs, htid⟩
  rcases List.mem_filter.mp hmem with ⟨hup, hhash⟩
  refine ⟨hup, by simpa using hhash, ?_, s, ?_, htid⟩
  · rw [hs]; simp
  · rw [hs]; exact List.mem_cons_self _ _

/-- C9: cache lookup inspects only the first summary of each digest-matching
upload: an upload whose first summary is for a different template is skipped
even when a later summary of the same upload matches the requested one. -/
theorem c9_check_cache_first_summary_only (db : DB) (h : String) (tid : Option Nat)
    (u : Upload) (s1 : Summary) (rest : List Summary) (s2 : Summary)
    (hu : u ∈ db.uploads) (hhash : u.file_hash = h)
    (hs : summariesOf db u.id = s1 :: rest)
    (hne : s1.prompt_template_id ≠ tid)
    (hs2 : s2 ∈ rest) (hs2tid : s2.prompt_template_id = tid) :
    check_cache db h tid ≠ some u := by
  intro hhit
  rcases check_cacheAux_some hhit with ⟨_, s, rest2, hs', htid⟩
  rw [hs] at hs'
  cases hs'
  exact hne htid

/-- External collaborators and configuration seen by the pipeline.
`hash` is `calculate_file_hash` (utils.py, SHA-256 of the file bytes, a
deterministic function of the content); `extract` is the pypdf text
extraction (`extract_text_from_pdf`, returning the concatenated page text
and the page count, or raising); `api` is the Anthropic
`client.messages.create` boundary, taking the single user-message content
string and returning the response text or raising; `maxTextLength` is
`MAX_TEXT_LENGTH`; `now` is the clock used for the `upload_date` /
`created_date` column defaults. -/
structure Env where
  hash : List Nat → String
  extract : List Nat → Except String (String × Nat)
  api : String → Except String String
  maxTextLength : Nat
  default_prompt_text : String
  now : Int

/-- Content of the single user message sent to the Claude API
(claude_service.py line 127): the prompt text, a blank line, and the
extracted text truncated to `MAX_TEXT_LENGTH` characters
(`text[:max_text_length]`). -/
def claude_content (env : Env) (text : String) (prompt_text : String) : String :=
  prompt_text ++ "\n\n" ++ text.take env.maxTextLength

/-- The function `summarize_with_claude` (claude_service.py lines 91-146):
falls back to the default prompt when none is given, calls the API with the
prompt plus truncated text, and wraps API failures. -/
def summarize_with_claude (env : Env) (text : String) (prompt_text : Option String) :
    Except String String :=
  let p := match prompt_text with
    | none => env.default_prompt_text
    | some p => p
  match env.api (claude_content env text p) with
  | .ok t => .ok t
  | .error e => .error ("Error with Claude API: " ++ e)

/-- The upload directory: saved files as (path, size-in-bytes) entries. -/
abbrev FileStore := List (String × Nat)

/-- One file of a POST submission.  `filename` is the client-supplied name;
`content` the raw bytes; `saved_path` and `unique_filename` are the
timestamped collision-free path and name that `save_uploaded_file`
(utils.py) would assign when the file is saved. -/
structure FileInput where
  filename : String
  content : List Nat
  saved_path : String
  unique_filename : String
deriving Repr, DecidableEq

/-- Python's `str.lower()`, character by character. -/
def pyLower (s : String) : String :=
  String.mk (s.data.map Char.toLower)

/-- Python's `str.endswith(suffix)`. -/
def pyEndsWith (s suffix : String) : Bool :=
  List.isSuffixOf suffix.data s.data

/-- Insert into the `upload` table, handing out the next primary key
(`db.session.add` + `flush`). -/
def DB.addUpload (db : DB) (u : Upload) : DB :=
  { db with uploads := db.uploads ++ [u], nextUploadId := db.nextUploadId + 1 }

/-- Insert into the `summary` table. -/
def DB.addSummary (db : DB) (s : Summary) : DB :=
  { db with summaries := db.summaries ++ [s], nextSummaryId := db.nextSummaryId + 1 }

/-- In-flight state of the `for file in files` loop of the index route
(routes.py lines 126-215): the session's pending database state, the upload
directory, the accumulators `processed_ids` and `cached_count`, the flashed
per-file warnings, and one log entry per call to the text-extraction
collaborator and to the summarization API. -/
structure LoopState where
  db : DB
  store : FileStore
  processed_ids : List Nat
  cached_count : Nat
  warnings : List String
  extractLog : List (List Nat)
  apiLog : List String

/-- One iteration of the loop (routes.py lines 129-215).  `.error` models an
exception escaping the iteration (PDF extraction or summarization failure):
it carries the state at the raise point, whose database part is later undone
by the handler's rollback while files already written stay on disk.

Branches, in source order: the extension check (line 131) skips non-`.pdf`
names with a flash warning; `save_uploaded_file` stores the bytes; the hash
is computed and the cache consulted.  On a hit a new upload row with
`is_cached = True` is added and `cached_upload.summaries[0]` is copied
verbatim into a new summary row (an empty summary list would raise
`IndexError`, modelled by the `.error` branch, but `check_cache` never
returns such an upload).  On a miss a new upload row with
`is_cached = False` is added, the text is extracted, `summarize_with_claude`
is called, and a summary row is written with the page count and the
character count of the full untruncated text (`len(text)`). -/
def processOne (env : Env) (session_id : String) (tid : Option Nat) (prompt : String)
    (st : LoopState) (f : FileInput) : Except LoopState LoopState :=
  if f.filename = "" ∨ ¬ (pyEndsWith (pyLower f.filename) ".pdf") then
    Except.ok { st with
      warnings := st.warnings ++ ["Skipped " ++ f.filename ++ ": Only PDF files are allowed"] }
  else
    let store1 := st.store ++ [(f.saved_path, f.content.length)]
    let file_hash := env.hash f.content
    match check_cache st.db file_hash tid with
    | some cached_upload =>
      let uid := st.db.nextUploadId
      let db1 := st.db.addUpload
        { id := uid
          filename := f.unique_filename
          original_filename := f.filename
          file_path := f.saved_path
          file_hash := file_hash
          session_id := session_id
          upload_date := env.now
          file_size := f.content.length
          is_cached := true }
      match summariesOf st.db cached_upload.id with
      | [] => Except.error { st with db := db1, store := store1 }
      | cached_summary :: _ =>
        let s : Summary :=
          { id := st.db.nextSummaryId
            upload_id := uid
            prompt_template_id := tid
            summary_text := cached_summary.summary_text
            created_date := env.now
            page_count := cached_summary.page_count
            char_count := cached_summary.char_count }
        Except.ok { st with
          db := db1.addSummary s
          store := store1
          processed_ids := st.processed_ids ++ [uid]
          cached_count := st.cached_count + 1 }
    | none =>
      let uid := st.db.nextUploadId
      let db1 := st.db.addUpload
        { id := uid
          filename := f.unique_filename
          original_filename := f.filename
          file_path := f.saved_path
          file_hash := file_hash
          session_id := session_id
          upload_date := env.now
          file_size := f.content.length
          is_cached := false }
      let st1 := { st with
        db := db1
        store := store1
        extractLog := st.extractLog ++ [f.content] }
      match env.extract f.content with
      | .error _ => Except.error st1
      | .ok (text, page_count) =>
        let st2 := { st1 with apiLog := st1.apiLog ++ [claude_content env text prompt] }
        match summarize_with_claude env text (some prompt) with
        | .error _ => Except.error st2
        | .ok summary_text =>
          let s : Summary :=
            { id := db1.nextSummaryId
              upload_id := uid
              prompt_template_id := tid
              summary_text := summary_text
              created_date := env.now
              page_count := page_count
              char_count := text.length }
          Except.ok { st2 with
            db := db1.addSummary s
            processed_ids := st2.processed_ids ++ [uid] }

/-- The whole `for file in files` loop: the first exception aborts the rest
of the batch. -/
def processFiles (env : Env) (session_id : String) (tid : Option Nat) (prompt : String)
    (st : LoopState) : List FileInput → Except LoopState LoopState
  | [] => Except.ok st
  | f :: rest =>
    match processOne env session_id tid prompt st f with
    | .ok st' => processFiles env session_id tid prompt st' rest
    | .error st' => Except.error st'

/-- Outcome of one POST of the index route, as far as the claims are
concerned.  `error = none` models the single `db.session.commit()` at the
end of the batch; `error = some _` models the `except` handler: rollback of
every pending row, flash of one error message, redirect. -/
structure BatchResult where
  db : DB
  store : FileStore
  processed_ids : List Nat
  cached_count : Nat
  warnings : List String
  extractLog : List (List Nat)
  apiLog : List String
  error : Option String
deriving Repr

/-- Starting loop state of a request. -/
def initState (db : DB) (store : FileStore) : LoopState :=
  { db := db
    store := store
    processed_ids := []
    cached_count := 0
    warnings := []
    extractLog := []
    apiLog := [] }

/-- The POST branch of the index route (routes.py lines 110-236), for a
validated form whose selected template exists and has text `prompt`.
`if not files or files[0].filename == ""` (line 122) rejects the whole
submission as "No files selected"; otherwise the loop runs and either every
pending row is committed at once (line 218) or the `except` handler rolls
the entire batch back (line 231) — files already saved to the upload
directory are not removed by the rollback. -/
def index_post (env : Env) (session_id : String) (tid : Option Nat) (prompt : String)
    (db : DB) (store : FileStore) (files : List FileInput) : BatchResult :=
  match files with
  | [] =>
    { db := db
      store := store
      processed_ids := []
      cached_count := 0
      warnings := []
      extractLog := []
      apiLog := []
      error := some "No files selected" }
  | f0 :: _ =>
    if f0.filename = "" then
      { db := db
        store := store
        processed_ids := []
        cached_count := 0
        warnings := []
        extractLog := []
        apiLog := []
        error := some "No files selected" }
    else
      match processFiles env session_id tid prompt (initState db store) files with
      | .ok st =>
        { db := st.db
          store := st.store
          processed_ids := st.processed_ids
          cached_count := st.cached_count
          warnings := st.warnings
          extractLog := st.extractLog
          apiLog := st.apiLog
          error := none }
      | .error st =>
        { db := db
          store := st.store
          processed_ids := []
          cached_count := st.cached_count
          warnings := st.warnings
          extractLog := st.extractLog
          apiLog := st.apiLog
          error := some "Error processing files" }

/-- The `os.path.exists` / `os.path.getsize` pair on the upload directory. -/
def lookupFile (store : FileStore) (path : String) : Option Nat :=
  (store.find? (fun e => e.1 == path)).map (fun e => e.2)

/-- The `os.remove` on the upload directory. -/
def removeFile (store : FileStore) (path : String) : FileStore :=
  store.filter (fun e => e.1 != path)

/-- Delete one upload row; the `cascade="all, delete-orphan"` relationship
(models.py line 25) deletes its summary rows with it. -/
def DB.deleteUploadCascade (db : DB) (uid : Nat) : DB :=
  { db with
    uploads := db.uploads.filter (fun u => u.id != uid)
    summaries := db.summaries.filter (fun s => s.upload_id != uid) }

/-- Accumulator of the cleanup loop (cleanup.py lines 37-50). -/
structure CleanupAcc where
  db : DB
  store : FileStore
  deleted_count : Nat
  freed_space : Nat

/-- One iteration of the cleanup loop (cleanup.py lines 40-50): if the
backing file still exists, read its size, remove it and add the size to the
freed-space total (a missing file is skipped without error); then delete the
database row, cascading to its summaries, and bump the deleted count. -/
def cleanupStep (acc : CleanupAcc) (u : Upload) : CleanupAcc :=
  match lookupFile acc.store u.file_path with
  | some sz =>
    { db := acc.db.deleteUploadCascade u.id
      store := removeFile acc.store u.file_path
      deleted_count := acc.deleted_count + 1
      freed_space := acc.freed_space + sz }
  | none =>
    { db := acc.db.deleteUploadCascade u.id
      store := acc.store
      deleted_count := acc.deleted_count + 1
      freed_space := acc.freed_space }

/-- Outcome of one cleanup run.  `report = some (deleted, bytes)` models the
single `db.session.commit()` followed by `log_cleanup`; `report = none`
models the `except` branch (cleanup.py lines 60-62): `db.session.rollback()`
plus a logged — not propagated — error. -/
structure CleanupResult where
  db : DB
  store : FileStore
  report : Option (Nat × Nat)
deriving Repr

/-- The function `cleanup_old_uploads` (cleanup.py lines 19-62).  The cutoff
is `now - timedelta(days = retention_days)` and the selection is strict
(`Upload.upload_date < cutoff_date`).  `failAfter = none` is the normal run;
`failAfter = some k` is the run in which an exception is raised after `k`
loop iterations have completed (or at the commit, when `k` is not smaller
than the number of selected rows): the file deletions of those iterations
have already happened on disk, while every pending database delete is rolled
back and the exception is swallowed. -/
def cleanup_old_uploads (db : DB) (store : FileStore) (now : Int) (retention_days : Int)
    (failAfter : Option Nat) : CleanupResult :=
  let cutoff_date := now - retention_days * 86400
  let old_uploads := db.uploads.filter (fun u => decide (u.upload_date < cutoff_date))
  match failAfter with
  | none =>
    let acc := old_uploads.foldl cleanupStep
      { db := db, store := store, deleted_count := 0, freed_space := 0 }
    { db := acc.db, store := acc.store, report := some (acc.deleted_count, acc.freed_space) }
  | some k =>
    let acc := (old_uploads.take k).foldl cleanupStep
      { db := db, store := store, deleted_count := 0, freed_space := 0 }
    { db := db, store := acc.store, report := none }

/-- Python's `name.rsplit(".", 1)[0]`: everything before the last dot, or
the whole name when it has none. -/
def stemOf (name : String) : String :=
  let rev := name.data.reverse
  if rev.contains '.' then
    String.mk ((rev.dropWhile (fun c => c ≠ '.')).drop 1).reverse
  else
    name

/-- Body of the generated download (routes.py lines 278-285); the
`strftime` rendering of the creation date is abstracted to a decimal
rendering of the timestamp. -/
def render_summary_text (u : Upload) (s : Summary) : String :=
  "Summary of: " ++ u.original_filename ++ "\n" ++
  "Generated: " ++ toString s.created_date ++ "\n" ++
  "Pages: " ++ toString s.page_count ++ "\n" ++
  "Original document characters: " ++ toString s.char_count ++ "\n" ++
  (if u.is_cached then "Source: Cached summary\n" else "") ++
  "\n" ++ String.mk (List.replicate 80 '=') ++ "\n\n" ++
  s.summary_text

/-- Possible responses of the download route: a streamed text/plain
attachment, a distinct 404 response, or a flash-message redirect (302) to
the index page. -/
inductive DownloadResponse where
  | file (download_name : String) (content : String)
  | notFound
  | redirectIndex (message : String)
deriving Repr, DecidableEq

/-- The route `GET /download/<summary_id>` (routes.py lines 268-302).  The
whole body sits in one `try`; on an unknown id the code runs `abort(404)`,
which raises `werkzeug.exceptions.NotFound` — a subclass of `Exception` —
so the route's own `except Exception` handler catches it and turns it into
a flashed error plus a redirect to the index page; no 404 response leaves
the route. -/
def download_summary (db : DB) (summary_id : Nat) : DownloadResponse :=
  match db.summaries.find? (fun s => s.id == summary_id) with
  | none => DownloadResponse.redirectIndex "Error downloading summary: 404 Not Found"
  | some s =>
    match db.uploads.find? (fun u => u.id == s.upload_id) with
    | none => DownloadResponse.redirectIndex "Error downloading summary"
    | some u =>
      DownloadResponse.file ("summary_" ++ stemOf u.original_filename ++ ".txt")
        (render_summary_text u s)

/-- One cleanup iteration always deletes exactly the rows of the processed
upload from the database, whatever the file system said. -/
theorem cleanupStep_db (acc : CleanupAcc) (u : Upload) :
    (cleanupStep acc u).db = acc.db.deleteUploadCascade u.id := by
  unfold cleanupStep
  split <;> rfl

/-- One cleanup iteration always bumps the deleted count by one. -/
theorem cleanupStep_count (acc : CleanupAcc) (u : Upload) :
    (cleanupStep acc u).deleted_count = acc.deleted_count + 1 := by
  unfold cleanupStep
  split <;> rfl

/-- One cleanup iteration leaves the store without the processed upload's
backing file; when the file was already missing this is a no-op (the
missing file is not an error). -/
theorem cleanupStep_store (acc : CleanupAcc) (u : Upload) :
    (cleanupStep acc u).store = removeFile acc.store u.file_path := by
  unfold cleanupStep
  split
  · rfl
  · rename_i h
    show acc.store = removeFile acc.store u.file_path
    have hnone : acc.store.find? (fun e => e.1 == u.file_path) = none := by
      by_contra hne
      rcases Option.ne_none_iff_exists'.mp hne with ⟨e, he⟩
      simp [lookupFile, he] at h
    have hall := List.find?_eq_none.mp hnone
    unfold removeFile
    symm
    apply List.filter_eq_self.mpr
    intro e he
    simpa [bne] using hall e he

/-- The cleanup loop deletes from the `upload` table exactly the rows whose
id belongs to a processed upload. -/
theorem cleanup_foldl_uploads (olds : List Upload) (acc : CleanupAcc) :
    (olds.foldl cleanupStep acc).db.uploads =
      acc.db.uploads.filter (fun u => olds.all (fun o => u.id != o.id)) := by
  induction olds generalizing acc with
  | nil => simp
  | cons o olds ih =>
    rw [List.foldl_cons, ih, cleanupStep_db]
    show (acc.db.uploads.filter (fun u => u.id != o.id)).filter _ = _
    rw [List.filter_filter]
    apply List.filter_congr
    intro u _
    simp [Bool.and_comm]

/-- The cleanup loop cascades: it deletes from the `summary` table exactly
the rows owned by a processed upload. -/
theorem cleanup_foldl_summaries (olds : List Upload) (acc : CleanupAcc) :
    (olds.foldl cleanupStep acc).db.summaries =
      acc.db.summaries.filter (fun s => olds.all (fun o => s.upload_id != o.id)) := by
  induction olds generalizing acc with
  | nil => simp
  | cons o olds ih =>
    rw [List.foldl_cons, ih, cleanupStep_db]
    show (acc.db.summaries.filter (fun s => s.upload_id != o.id)).filter _ = _
    rw [List.filter_filter]
    apply List.filter_congr
    intro s _
    simp [Bool.and_comm]

/-- The cleanup loop removes from the upload directory exactly the backing
files of the processed uploads. -/
theorem cleanup_foldl_store (olds : List Upload) (acc : CleanupAcc) :
    (olds.foldl cleanupStep acc).store =
      acc.store.filter (fun e => olds.all (fun o => e.1 != o.file_path)) := by
  induction olds generalizing acc with
  | nil => simp
  | cons o olds ih =>
    rw [List.foldl_cons, ih, cleanupStep_store]
    show (acc.store.filter (fun e => e.1 != o.file_path)).filter _ = _
    rw [List.filter_filter]
    apply List.filter_congr
    intro e _
    simp [Bool.and_comm]

/-- The cleanup loop counts one deletion per processed upload. -/
theorem cleanup_foldl_count (olds : List Upload) (acc : CleanupAcc) :
    (olds.foldl cleanupStep acc).deleted_count = acc.deleted_count + olds.length := by
  induction olds generalizing acc with
  | nil => simp
  | cons o olds ih =>
    rw [List.foldl_cons, ih, cleanupStep_count, List.length_cons]
    omega

/-- A successful cleanup run is, definitionally, the loop fold followed by
the commit. -/
theorem cleanup_run_eq (db : DB) (store : FileStore) (now retention_days : Int) :
    cleanup_old_uploads db store now retention_days none =
      { db := ((db.uploads.filter (fun u =>
            decide (u.upload_date < now - retention_days * 86400))).foldl cleanupStep
            { db := db, store := store, deleted_count := 0, freed_space := 0 }).db
        store := ((db.uploads.filter (fun u =>
            decide (u.upload_date < now - retention_days * 86400))).foldl cleanupStep
            { db := db, store := store, deleted_count := 0, freed_space := 0 }).store
        report := some
          (((db.uploads.filter (fun u =>
              decide (u.upload_date < now - retention_days * 86400))).foldl cleanupStep
              { db := db, store := store, deleted_count := 0, freed_space := 0 }).deleted_count,
           ((db.uploads.filter (fun u =>
              decide (u.upload_date < now - retention_days * 86400))).foldl cleanupStep
              { db := db, store := store, deleted_count := 0, freed_space := 0 }).freed_space) } :=
  rfl

/-- A cleanup run that selects no rows commits immediately and reports
zero deletions and zero freed bytes. -/
theorem cleanup_run_of_no_old (db : DB) (store : FileStore) (now retention_days : Int)
    (h : db.uploads.filter (fun u =>
        decide (u.upload_date < now - retention_days * 86400)) = []) :
    cleanup_old_uploads db store now retention_days none =
      { db := db, store := store, report := some (0, 0) } := by
  rw [cleanup_run_eq, h]
  rfl

/-- C5: a cleanup run with retention `N` at time `now` deletes exactly the
uploads whose creation timestamp is strictly older than `now` minus `N`
days, together with their summaries and backing files; in particular an
upload aged `N+1` days is deleted and an upload aged `N-1` days is
retained. -/
theorem c5_cleanup_retention_boundary (db : DB) (store : FileStore)
    (now retention_days : Int)
    (hids : (db.uploads.map (fun u => u.id)).Nodup) :
    (cleanup_old_uploads db store now retention_days none).db.uploads =
      db.uploads.filter (fun u =>
        !decide (u.upload_date < now - retention_days * 86400)) ∧
    (cleanup_old_uploads db store now retention_days none).db.summaries =
      db.summaries.filter (fun s =>
        (db.uploads.filter (fun u =>
          decide (u.upload_date < now - retention_days * 86400))).all
          (fun o => s.upload_id != o.id)) ∧
    (cleanup_old_uploads db store now retention_days none).store =
      store.filter (fun e =>
        (db.uploads.filter (fun u =>
          decide (u.upload_date < now - retention_days * 86400))).all
          (fun o => e.1 != o.file_path)) ∧
    (∀ u ∈ db.uploads, u.upload_date = now - (retention_days + 1) * 86400 →
      u ∉ (cleanup_old_uploads db store now retention_days none).db.uploads) ∧
    (∀ u ∈ db.uploads, u.upload_date = now - (retention_days - 1) * 86400 →
      u ∈ (cleanup_old_uploads db store now retention_days none).db.uploads) := by
  have hup : (cleanup_old_uploads db store now retention_days none).db.uploads =
      db.uploads.filter (fun u =>
        !decide (u.upload_date < now - retention_days * 86400)) := by
    rw [cleanup_run_eq]
    show ((db.uploads.filter _).foldl cleanupStep _).db.uploads = _
    rw [cleanup_foldl_uploads]
    apply List.filter_congr
    intro u hu
    by_cases hd : u.upload_date < now - retention_days * 86400
    · have hmem : u ∈ db.uploads.filter (fun v =>
          decide (v.upload_date < now - retention_days * 86400)) :=
        List.mem_filter.mpr ⟨hu, by simpa using hd⟩
      have hfalse : (db.uploads.filter (fun v =>
          decide (v.upload_date < now - retention_days * 86400))).all
            (fun o => u.id != o.id) = false := by
        apply Bool.eq_false_iff.mpr
        intro hall
        have := (List.all_eq_true.mp hall) u hmem
        simp at this
      rw [hfalse]
      simp [hd]
    · have htrue : (db.uploads.filter (fun v =>
          decide (v.upload_date < now - retention_days * 86400))).all
            (fun o => u.id != o.id) = true := by
        apply List.all_eq_true.mpr
        intro o ho
        rcases List.mem_filter.mp ho with ⟨ho1, ho2⟩
        have hne : u.id ≠ o.id := by
          intro he
          have heq : u = o := List.inj_on_of_nodup_map hids hu ho1 he
          rw [← heq] at ho2
          exact hd (by simpa using ho2)
        simpa using hne
      rw [htrue]
      simp [hd]
  refine ⟨hup, ?_, ?_, ?_, ?_⟩
  · rw [cleanup_run_eq]
    show ((db.uploads.filter _).foldl cleanupStep _).db.summaries = _
    rw [cleanup_foldl_summaries]
  · rw [cleanup_run_eq]
    show ((db.uploads.filter _).foldl cleanupStep _).store = _
    rw [cleanup_foldl_store]
  · intro u hu hdate hmem
    rw [hup] at hmem
    rcases List.mem_filter.mp hmem with ⟨_, hpred⟩
    have : ¬ (u.upload_date < now - retention_days * 86400) := by simpa using hpred
    apply this
    rw [hdate]
    have hexp : (retention_days + 1) * 86400 = retention_days * 86400 + 86400 := by ring
    omega
  · intro u hu hdate
    rw [hup]
    apply List.mem_filter.mpr
    refine ⟨hu, ?_⟩
    have : ¬ (u.upload_date < now - retention_days * 86400) := by
      rw [hdate]
      have hexp : (retention_days - 1) * 86400 = retention_days * 86400 - 86400 := by ring
      omega
    simpa using this

/-- C5 witness: with a 30-day retention at `now = 40` days, an upload dated
day 9 (31 days old) is deleted with its summary and backing file, and an
upload dated day 26 (14 days old) is retained. -/
theorem c5_cleanup_retention_boundary_witness :
    (([⟨1, "a.pdf", "a.pdf", "up/a.pdf", "D1", "s1", 9 * 86400, 3, false⟩,
       ⟨2, "b.pdf", "b.pdf", "up/b.pdf", "D2", "s1", 26 * 86400, 4, false⟩] :
         List Upload).map (fun u => u.id)).Nodup ∧
    (cleanup_old_uploads
        { uploads := [⟨1, "a.pdf", "a.pdf", "up/a.pdf", "D1", "s1", 9 * 86400, 3, false⟩,
                      ⟨2, "b.pdf", "b.pdf", "up/b.pdf", "D2", "s1", 26 * 86400, 4, false⟩]
          summaries := [⟨1, 1, some 5, "SA", 0, 2, 10⟩, ⟨2, 2, some 5, "SB", 0, 3, 11⟩]
          nextUploadId := 3
          nextSummaryId := 3 }
        [("up/a.pdf", 3), ("up/b.pdf", 4)] (40 * 86400) 30 none).db.uploads =
      ({ uploads := [⟨1, "a.pdf", "a.pdf", "up/a.pdf", "D1", "s1", 9 * 86400, 3, false⟩,
                     ⟨2, "b.pdf", "b.pdf", "up/b.pdf", "D2", "s1", 26 * 86400, 4, false⟩]
         summaries := [⟨1, 1, some 5, "SA", 0, 2, 10⟩, ⟨2, 2, some 5, "SB", 0, 3, 11⟩]
         nextUploadId := 3
         nextSummaryId := 3 } : DB).uploads.filter (fun u =>
        !decide (u.upload_date < 40 * 86400 - 30 * 86400)) := by
  constructor
  · decide
  · exact (c5_cleanup_retention_boundary
      { uploads := [⟨1, "a.pdf", "a.pdf", "up/a.pdf", "D1", "s1", 9 * 86400, 3, false⟩,
                    ⟨2, "b.pdf", "b.pdf", "up/b.pdf", "D2", "s1", 26 * 86400, 4, false⟩]
        summaries := [⟨1, 1, some 5, "SA", 0, 2, 10⟩, ⟨2, 2, some 5, "SB", 0, 3, 11⟩]
        nextUploadId := 3
        nextSummaryId := 3 }
      [("up/a.pdf", 3), ("up/b.pdf", 4)] (40 * 86400) 30 (by decide)).1

/-- C6: cleanup is idempotent: immediately after a completed run, a second
run with the same clock selects nothing, deletes zero records, frees zero
bytes and leaves the database and the store unchanged; and the first run's
report is a committed one (missing backing files were skipped, not treated
as errors). -/
theorem c6_cleanup_idempotent (db : DB) (store : FileStore) (now retention_days : Int) :
    cleanup_old_uploads (cleanup_old_uploads db store now retention_days none).db
        (cleanup_old_uploads db store now retention_days none).store
        now retention_days none =
      { db := (cleanup_old_uploads db store now retention_days none).db
        store := (cleanup_old_uploads db store now retention_days none).store
        report := some (0, 0) } ∧
    (cleanup_old_uploads db store now retention_days none).report.isSome = true := by
  constructor
  · apply cleanup_run_of_no_old
    apply List.filter_eq_nil_iff.mpr
    intro u hmem
    rw [cleanup_run_eq] at hmem
    have hmem2 : u ∈ ((db.uploads.filter (fun v =>
        decide (v.upload_date < now - retention_days * 86400))).foldl cleanupStep
        { db := db, store := store, deleted_count := 0, freed_space := 0 }).db.uploads := hmem
    rw [cleanup_foldl_uploads] at hmem2
    rcases List.mem_filter.mp hmem2 with ⟨hu, hall⟩
    intro hd
    have hmemold : u ∈ db.uploads.filter (fun v =>
        decide (v.upload_date < now - retention_days * 86400)) :=
      List.mem_filter.mpr ⟨hu, hd⟩
    have := (List.all_eq_true.mp hall) u hmemold
    simp at this
  · rw [cleanup_run_eq]
    rfl

/-- C10: when an exception interrupts a cleanup run after `k` processed
uploads, the rollback restores every database row, the run reports nothing
(the exception is swallowed), but the backing files of the uploads already
processed stay deleted: only the database side of the job is atomic. -/
theorem c10_cleanup_failure_frame (db : DB) (store : FileStore)
    (now retention_days : Int) (k : Nat) :
    (cleanup_old_uploads db store now retention_days (some k)).db = db ∧
    (cleanup_old_uploads db store now retention_days (some k)).report = none ∧
    (cleanup_old_uploads db store now retention_days (some k)).store =
      store.filter (fun e =>
        ((db.uploads.filter (fun u =>
          decide (u.upload_date < now - retention_days * 86400))).take k).all
          (fun o => e.1 != o.file_path)) := by
  refine ⟨rfl, rfl, ?_⟩
  show (((db.uploads.filter _).take k).foldl cleanupStep
      { db := db, store := store, deleted_count := 0, freed_space := 0 }).store = _
  rw [cleanup_foldl_store]

/-- A file whose name fails the `.pdf` check is skipped with one per-file
warning: no store write, no database row, no collaborator call, and the
loop goes on. -/
theorem processOne_skip (env : Env) (sid : String) (tid : Option Nat) (prompt : String)
    (st : LoopState) (f : FileInput)
    (h : f.filename = "" ∨ ¬ (pyEndsWith (pyLower f.filename) ".pdf" = true)) :
    processOne env sid tid prompt st f = Except.ok { st with
      warnings := st.warnings ++ ["Skipped " ++ f.filename ++ ": Only PDF files are allowed"] } := by
  unfold processOne
  rw [if_pos h]

/-- On a cache hit, one loop iteration saves the file, adds one upload row
flagged `is_cached`, and adds one summary row copied verbatim from the
cached upload's first summary; it makes no extraction call and no API
call. -/
theorem processOne_cache_hit (env : Env) (sid : String) (tid : Option Nat) (prompt : String)
    (st : LoopState) (f : FileInput) (cu : Upload) (cs : Summary) (rest : List Summary)
    (hname : ¬ f.filename = "")
    (hpdf : pyEndsWith (pyLower f.filename) ".pdf" = true)
    (hcache : check_cache st.db (env.hash f.content) tid = some cu)
    (hsums : summariesOf st.db cu.id = cs :: rest) :
    processOne env sid tid prompt st f = Except.ok { st with
      db := (st.db.addUpload
        { id := st.db.nextUploadId
          filename := f.unique_filename
          original_filename := f.filename
          file_path := f.saved_path
          file_hash := env.hash f.content
          session_id := sid
          upload_date := env.now
          file_size := f.content.length
          is_cached := true }).addSummary
        { id := st.db.nextSummaryId
          upload_id := st.db.nextUploadId
          prompt_template_id := tid
          summary_text := cs.summary_text
          created_date := env.now
          page_count := cs.page_count
          char_count := cs.char_count }
      store := st.store ++ [(f.saved_path, f.content.length)]
      processed_ids := st.processed_ids ++ [st.db.nextUploadId]
      cached_count := st.cached_count + 1 } := by
  unfold processOne
  rw [if_neg (by push_neg; exact ⟨hname, by simp [hpdf]⟩)]
  dsimp only
  rw [hcache]
  dsimp only
  rw [hsums]

/-- On a cache miss with successful extraction and summarization, one loop
iteration saves the file, adds one upload row with `is_cached = False`,
calls the extractor once and the API once with the prompt plus the
truncated text, and adds one summary row whose char count is the length of
the untruncated extracted text. -/
theorem processOne_cache_miss (env : Env) (sid : String) (tid : Option Nat) (prompt : String)
    (st : LoopState) (f : FileInput) (text : String) (page_count : Nat) (stext : String)
    (hname : ¬ f.filename = "")
    (hpdf : pyEndsWith (pyLower f.filename) ".pdf" = true)
    (hcache : check_cache st.db (env.hash f.content) tid = none)
    (hext : env.extract f.content = Except.ok (text, page_count))
    (happi : env.api (claude_content env text prompt) = Except.ok stext) :
    processOne env sid tid prompt st f = Except.ok { st with
      db := (st.db.addUpload
        { id := st.db.nextUploadId
          filename := f.unique_filename
          original_filename := f.filename
          file_path := f.saved_path
          file_hash := env.hash f.content
          session_id := sid
          upload_date := env.now
          file_size := f.content.length
          is_cached := false }).addSummary
        { id := st.db.nextSummaryId
          upload_id := st.db.nextUploadId
          prompt_template_id := tid
          summary_text := stext
          created_date := env.now
          page_count := page_count
          char_count := text.length }
      store := st.store ++ [(f.saved_path, f.content.length)]
      processed_ids := st.processed_ids ++ [st.db.nextUploadId]
      extractLog := st.extractLog ++ [f.content]
      apiLog := st.apiLog ++ [claude_content env text prompt] } := by
  have hsum : summarize_with_claude env text (some prompt) = Except.ok stext := by
    unfold summarize_with_claude
    dsimp only
    rw [happi]
  unfold processOne
  rw [if_neg (by push_neg; exact ⟨hname, by simp [hpdf]⟩)]
  dsimp only
  rw [hcache]
  dsimp only
  rw [hext]
  dsimp only
  rw [hsum]
  rfl

/-- Any successful loop iteration either leaves the pending tables and the
processed-id list untouched (a skipped file) or appends exactly one upload
row, one summary row, and that upload's id to the processed list. -/
theorem processOne_ok_shape (env : Env) (sid : String) (tid : Option Nat) (prompt : String)
    (st : LoopState) (f : FileInput) (st' : LoopState)
    (h : processOne env sid tid prompt st f = Except.ok st') :
    (st'.db.uploads = st.db.uploads ∧ st'.db.summaries = st.db.summaries ∧
      st'.processed_ids = st.processed_ids) ∨
    (∃ u s, st'.db.uploads = st.db.uploads ++ [u] ∧
      st'.db.summaries = st.db.summaries ++ [s] ∧
      st'.processed_ids = st.processed_ids ++ [u.id]) := by
  unfold processOne at h
  split at h
  · injection h with h
    subst h
    left
    exact ⟨rfl, rfl, rfl⟩
  · dsimp only at h
    split at h
    · split at h
      · exact absurd h (by simp)
      · rename_i cu cs tail heq
        injection h with h
        subst h
        right
        refine ⟨{ id := st.db.nextUploadId
                  filename := f.unique_filename
                  original_filename := f.filename
                  file_path := f.saved_path
                  file_hash := env.hash f.content
                  session_id := sid
                  upload_date := env.now
                  file_size := f.content.length
                  is_cached := true },
                { id := st.db.nextSummaryId
                  upload_id := st.db.nextUploadId
                  prompt_template_id := tid
                  summary_text := cs.summary_text
                  created_date := env.now
                  page_count := cs.page_count
                  char_count := cs.char_count }, ?_, ?_, ?_⟩
        · simp [DB.addUpload, DB.addSummary]
        · simp [DB.addUpload, DB.addSummary]
        · rfl
    · split at h
      · exact absurd h (by simp)
      · rename_i text page_count hext
        split at h
        · exact absurd h (by simp)
        · rename_i stext hsum
          injection h with h
          subst h
          right
          refine ⟨{ id := st.db.nextUploadId
                    filename := f.unique_filename
                    original_filename := f.filename
                    file_path := f.saved_path
                    file_hash := env.hash f.content
                    session_id := sid
                    upload_date := env.now
                    file_size := f.content.length
                    is_cached := false },
                  { id := st.db.nextSummaryId
                    upload_id := st.db.nextUploadId
                    prompt_template_id := tid
                    summary_text := stext
                    created_date := env.now
                    page_count := page_count
                    char_count := text.length }, ?_, ?_, ?_⟩
          · simp [DB.addUpload, DB.addSummary]
          · simp [DB.addUpload, DB.addSummary]
          · rfl

/-- Over a whole batch, a successful loop run appends one upload row per
processed id, in order, together with their summary rows: nothing else of
the two tables changes. -/
theorem processFiles_ok_shape (env : Env) (sid : String) (tid : Option Nat) (prompt : String)
    (files : List FileInput) :
    ∀ st st', processFiles env sid tid prompt st files = Except.ok st' →
      ∃ newU newS, st'.db.uploads = st.db.uploads ++ newU ∧
        st'.db.summaries = st.db.summaries ++ newS ∧
        st'.processed_ids = st.processed_ids ++ newU.map (fun u => u.id) := by
  induction files with
  | nil =>
    intro st st' h
    rw [processFiles] at h
    injection h with h
    subst h
    exact ⟨[], [], by simp, by simp, by simp⟩
  | cons f rest ih =>
    intro st st' h
    rw [processFiles] at h
    rcases hstep : processOne env sid tid prompt st f with st1 | st1
    · rw [hstep] at h
      exact absurd h (by simp)
    · rw [hstep] at h
      rcases ih st1 st' h with ⟨newU, newS, h1, h2, h3⟩
      rcases processOne_ok_shape env sid tid prompt st f st1 hstep with
        ⟨e1, e2, e3⟩ | ⟨u, s, e1, e2, e3⟩
      · exact ⟨newU, newS, by rw [h1, e1], by rw [h2, e2], by rw [h3, e3]⟩
      · refine ⟨u :: newU, s :: newS, ?_, ?_, ?_⟩
        · rw [h1, e1]
          simp
        · rw [h2, e2]
          simp
        · rw [h3, e3]
          simp

/-- A one-file batch loop is a single iteration. -/
theorem processFiles_singleton (env : Env) (sid : String) (tid : Option Nat) (prompt : String)
    (st : LoopState) (f : FileInput) (st1 : LoopState)
    (h : processOne env sid tid prompt st f = Except.ok st1) :
    processFiles env sid tid prompt st [f] = Except.ok st1 := by
  rw [processFiles, h]
  dsimp only
  rw [processFiles]

/-- When the loop of a non-degenerate submission succeeds, the route
commits it: the response carries the loop's final state and no error. -/
theorem index_post_run (env : Env) (sid : String) (tid : Option Nat) (prompt : String)
    (db : DB) (store : FileStore) (f0 : FileInput) (rest : List FileInput) (st : LoopState)
    (hname : ¬ f0.filename = "")
    (h : processFiles env sid tid prompt (initState db store) (f0 :: rest) = Except.ok st) :
    index_post env sid tid prompt db store (f0 :: rest) =
      { db := st.db
        store := st.store
        processed_ids := st.processed_ids
        cached_count := st.cached_count
        warnings := st.warnings
        extractLog := st.extractLog
        apiLog := st.apiLog
        error := none } := by
  unfold index_post
  dsimp only
  rw [if_neg hname, h]

/-- C2: a multi-file batch is all-or-nothing: whenever the route reports an
error (in particular when extraction or summarization raised for any one
file), the committed database is exactly the one from before the request —
no upload row and no summary row of the batch survives the rollback, and no
ids are returned; and on success one commit persists every new upload row
of the batch together, their ids being exactly the returned processed
ids. -/
theorem c2_batch_atomicity (env : Env) (sid : String) (tid : Option Nat) (prompt : String)
    (db : DB) (store : FileStore) (files : List FileInput) :
    ((index_post env sid tid prompt db store files).error.isSome = true →
      (index_post env sid tid prompt db store files).db = db ∧
      (index_post env sid tid prompt db store files).processed_ids = []) ∧
    ((index_post env sid tid prompt db store files).error = none →
      ∃ newU newS,
        (index_post env sid tid prompt db store files).db.uploads = db.uploads ++ newU ∧
        (index_post env sid tid prompt db store files).db.summaries = db.summaries ++ newS ∧
        newU.map (fun u => u.id) =
          (index_post env sid tid prompt db store files).processed_ids) := by
  rcases files with _ | ⟨f0, rest⟩
  · constructor
    · intro _
      exact ⟨rfl, rfl⟩
    · intro hnone
      exact absurd hnone (by simp [index_post])
  · by_cases hname : f0.filename = ""
    · unfold index_post
      dsimp only
      rw [if_pos hname]
      constructor
      · intro _
        exact ⟨rfl, rfl⟩
      · intro hnone
        exact absurd hnone (by simp)
    · unfold index_post
      dsimp only
      rw [if_neg hname]
      rcases hp : processFiles env sid tid prompt (initState db store) (f0 :: rest) with st | st
      · dsimp only
        constructor
        · intro _
          exact ⟨rfl, rfl⟩
        · intro hnone
          exact absurd hnone (by simp)
      · dsimp only
        constructor
        · intro hsome
          exact absurd hsome (by simp)
        · intro _
          rcases processFiles_ok_shape env sid tid prompt (f0 :: rest) (initState db store) st hp
            with ⟨newU, newS, h1, h2, h3⟩
          refine ⟨newU, newS, ?_, ?_, ?_⟩
          · exact h1
          · exact h2
          · rw [h3]
            simp [initState]

/-- Fixture: an environment whose summarization API always fails. -/
def wEnvApiFail : Env :=
  { hash := fun _ => "D1"
    extract := fun _ => Except.ok ("TEXT", 1)
    api := fun _ => Except.error "boom"
    maxTextLength := 100
    default_prompt_text := "DP"
    now := 0 }

/-- Fixture: an empty database. -/
def wDbEmpty : DB :=
  { uploads := [], summaries := [], nextUploadId := 1, nextSummaryId := 1 }

/-- Fixture: a well-formed PDF submission. -/
def wFilePdf : FileInput :=
  { filename := "doc.pdf"
    content := [0, 1]
    saved_path := "up/doc.pdf"
    unique_filename := "doc_1.pdf" }

/-- C2 witness: a one-file batch whose summarization fails leaves the
database exactly as it was and returns no ids. -/
theorem c2_batch_atomicity_witness :
    (index_post wEnvApiFail "s" (some 1) "P" wDbEmpty [] [wFilePdf]).error.isSome = true ∧
    ((index_post wEnvApiFail "s" (some 1) "P" wDbEmpty [] [wFilePdf]).db = wDbEmpty ∧
      (index_post wEnvApiFail "s" (some 1) "P" wDbEmpty [] [wFilePdf]).processed_ids = []) :=
  ⟨by decide,
    (c2_batch_atomicity wEnvApiFail "s" (some 1) "P" wDbEmpty [] [wFilePdf]).1 (by decide)⟩

/-- C1: ingesting a PDF whose content digest already has a persisted upload
with a summary for the requested template (in a database where, as the
pipeline guarantees, an upload carries at most one summary) makes zero
calls to the text-extraction collaborator and zero calls to the
summarization API, commits, and creates one new upload row with the
served-from-cache flag set together with one new summary row whose text,
page count and char count are copied verbatim from the cached summary found
by the lookup. -/
theorem c1_cache_hit_zero_external_calls (env : Env) (sid : String) (tid : Option Nat)
    (prompt : String) (db : DB) (store : FileStore) (f : FileInput)
    (hpdf : pyEndsWith (pyLower f.filename) ".pdf" = true)
    (hwf : ∀ u ∈ db.uploads, (summariesOf db u.id).length ≤ 1)
    (hex : ∃ u ∈ db.uploads, u.file_hash = env.hash f.content ∧
      ∃ s ∈ db.summaries, s.upload_id = u.id ∧ s.prompt_template_id = tid) :
    (index_post env sid tid prompt db store [f]).error = none ∧
    (index_post env sid tid prompt db store [f]).extractLog = [] ∧
    (index_post env sid tid prompt db store [f]).apiLog = [] ∧
    ∃ cu cs, check_cache db (env.hash f.content) tid = some cu ∧
      (summariesOf db cu.id).head? = some cs ∧
      ∃ u' s',
        (index_post env sid tid prompt db store [f]).db.uploads = db.uploads ++ [u'] ∧
        (index_post env sid tid prompt db store [f]).db.summaries = db.summaries ++ [s'] ∧
        u'.is_cached = true ∧
        s'.upload_id = u'.id ∧
        s'.prompt_template_id = tid ∧
        s'.summary_text = cs.summary_text ∧
        s'.page_count = cs.page_count ∧
        s'.char_count = cs.char_count := by
  have hname : ¬ f.filename = "" := by
    intro h0
    rw [h0] at hpdf
    exact absurd hpdf (by decide)
  obtain ⟨u, hu, hhash, s, hsmem, hsup, hstid⟩ := hex
  have hsin : s ∈ summariesOf db u.id := List.mem_filter.mpr ⟨hsmem, by simpa using hsup⟩
  have hsingleton : summariesOf db u.id = [s] := by
    have hlen := hwf u hu
    rcases hl : summariesOf db u.id with _ | ⟨a, tl⟩
    · rw [hl] at hsin
      simp at hsin
    · rw [hl] at hsin hlen
      rcases tl with _ | ⟨b, tl2⟩
      · simp at hsin
        rw [hsin]
      · simp at hlen
  have hufilter : u ∈ db.uploads.filter (fun v => v.file_hash == env.hash f.content) :=
    List.mem_filter.mpr ⟨hu, by simpa using hhash⟩
  have hne : check_cacheAux db tid
      (db.uploads.filter (fun v => v.file_hash == env.hash f.content)) ≠ none :=
    check_cacheAux_ne_none hufilter hsingleton hstid
  obtain ⟨cu, hcu⟩ := Option.ne_none_iff_exists'.mp hne
  have hcache : check_cache db (env.hash f.content) tid = some cu := hcu
  obtain ⟨_, cs, restcs, hsums, _⟩ := check_cacheAux_some hcu
  have hstep := processOne_cache_hit env sid tid prompt (initState db store) f cu cs restcs
    hname hpdf hcache hsums
  have hflist := processFiles_singleton env sid tid prompt (initState db store) f _ hstep
  have hrun := index_post_run env sid tid prompt db store f [] _ hname hflist
  rw [hrun]
  refine ⟨rfl, rfl, rfl, cu, cs, hcache, ?_, ?_⟩
  · rw [hsums]
    rfl
  · refine ⟨{ id := db.nextUploadId
              filename := f.unique_filename
              original_filename := f.filename
              file_path := f.saved_path
              file_hash := env.hash f.content
              session_id := sid
              upload_date := env.now
              file_size := f.content.length
              is_cached := true },
            { id := db.nextSummaryId
              upload_id := db.nextUploadId
              prompt_template_id := tid
              summary_text := cs.summary_text
              created_date := env.now
              page_count := cs.page_count
              char_count := cs.char_count }, ?_, ?_, rfl, rfl, rfl, rfl, rfl, rfl⟩
    · simp [DB.addUpload, DB.addSummary, initState]
    · simp [DB.addUpload, DB.addSummary, initState]

/-- Fixture: an environment in which any extraction or API call would fail,
so that a cache hit can only succeed by never calling either. -/
def wEnvNoCalls : Env :=
  { hash := fun _ => "D1"
    extract := fun _ => Except.error "must not be called"
    api := fun _ => Except.error "must not be called"
    maxTextLength := 100
    default_prompt_text := "DP"
    now := 50 }

/-- Fixture: an upload row of digest `D1`. -/
def wUpCached : Upload := ⟨1, "a.pdf", "a.pdf", "up/a.pdf", "D1", "s1", 0, 3, false⟩

/-- Fixture: a database holding one upload of digest `D1` with one summary
for template 5. -/
def wDbCached : DB :=
  { uploads := [wUpCached]
    summaries := [⟨1, 1, some 5, "SUM", 0, 2, 42⟩]
    nextUploadId := 2
    nextSummaryId := 2 }

/-- Fixture: a second upload of the same content, under an upper-case
extension. -/
def wFileUpper : FileInput :=
  { filename := "b.PDF"
    content := [1, 2, 3]
    saved_path := "up/b_1.pdf"
    unique_filename := "b_1.pdf" }

/-- C1 witness: re-ingesting cached content with template 5 commits a
served-from-cache upload and a verbatim summary copy without any
collaborator call. -/
theorem c1_cache_hit_zero_external_calls_witness :
    (pyEndsWith (pyLower wFileUpper.filename) ".pdf" = true ∧
      (∀ u ∈ wDbCached.uploads, (summariesOf wDbCached u.id).length ≤ 1) ∧
      (∃ u ∈ wDbCached.uploads, u.file_hash = wEnvNoCalls.hash wFileUpper.content ∧
        ∃ s ∈ wDbCached.summaries, s.upload_id = u.id ∧
          s.prompt_template_id = some 5)) ∧
    ((index_post wEnvNoCalls "s2" (some 5) "P" wDbCached [] [wFileUpper]).error = none ∧
      (index_post wEnvNoCalls "s2" (some 5) "P" wDbCached [] [wFileUpper]).extractLog = [] ∧
      (index_post wEnvNoCalls "s2" (some 5) "P" wDbCached [] [wFileUpper]).apiLog = [] ∧
      ∃ cu cs, check_cache wDbCached (wEnvNoCalls.hash wFileUpper.content) (some 5) = some cu ∧
        (summariesOf wDbCached cu.id).head? = some cs ∧
        ∃ u' s',
          (index_post wEnvNoCalls "s2" (some 5) "P" wDbCached [] [wFileUpper]).db.uploads =
            wDbCached.uploads ++ [u'] ∧
          (index_post wEnvNoCalls "s2" (some 5) "P" wDbCached [] [wFileUpper]).db.summaries =
            wDbCached.summaries ++ [s'] ∧
          u'.is_cached = true ∧
          s'.upload_id = u'.id ∧
          s'.prompt_template_id = some 5 ∧
          s'.summary_text = cs.summary_text ∧
          s'.page_count = cs.page_count ∧
          s'.char_count = cs.char_count) :=
  ⟨⟨by decide, by decide, by decide⟩,
    c1_cache_hit_zero_external_calls wEnvNoCalls "s2" (some 5) "P" wDbCached [] wFileUpper
      (by decide) (by decide) (by decide)⟩

/-- C7: on a cache miss, the string handed to the summarization API is the
prompt followed by the extracted text truncated to `MAX_TEXT_LENGTH`
characters, while the char count persisted on the new summary row is the
length of the original untruncated extracted text. -/
theorem c7_truncated_api_input_full_char_count (env : Env) (sid : String) (tid : Option Nat)
    (prompt : String) (db : DB) (store : FileStore) (f : FileInput)
    (text : String) (page_count : Nat) (stext : String)
    (hpdf : pyEndsWith (pyLower f.filename) ".pdf" = true)
    (hcache : check_cache db (env.hash f.content) tid = none)
    (hext : env.extract f.content = Except.ok (text, page_count))
    (happi : env.api (prompt ++ "\n\n" ++ text.take env.maxTextLength) = Except.ok stext) :
    (index_post env sid tid prompt db store [f]).apiLog =
      [prompt ++ "\n\n" ++ text.take env.maxTextLength] ∧
    (index_post env sid tid prompt db store [f]).error = none ∧
    ∃ s',
      (index_post env sid tid prompt db store [f]).db.summaries = db.summaries ++ [s'] ∧
      s'.char_count = text.length ∧
      s'.summary_text = stext ∧
      s'.page_count = page_count := by
  have hname : ¬ f.filename = "" := by
    intro h0
    rw [h0] at hpdf
    exact absurd hpdf (by decide)
  have happi' : env.api (claude_content env text prompt) = Except.ok stext := happi
  have hstep := processOne_cache_miss env sid tid prompt (initState db store) f
    text page_count stext hname hpdf hcache hext happi'
  have hflist := processFiles_singleton env sid tid prompt (initState db store) f _ hstep
  have hrun := index_post_run env sid tid prompt db store f [] _ hname hflist
  rw [hrun]
  refine ⟨?_, rfl, ?_⟩
  · simp [initState, claude_content]
  · refine ⟨{ id := db.nextSummaryId
              upload_id := db.nextUploadId
              prompt_template_id := tid
              summary_text := stext
              created_date := env.now
              page_count := page_count
              char_count := text.length }, ?_, rfl, rfl, rfl⟩
    simp [DB.addUpload, DB.addSummary, initState]

/-- Fixture: a cache-miss environment with a 2-character truncation limit
and an API echoing its input. -/
def wEnvMiss : Env :=
  { hash := fun _ => "DX"
    extract := fun _ => Except.ok ("TEXT", 2)
    api := fun s => Except.ok ("S:" ++ s)
    maxTextLength := 2
    default_prompt_text := "DP"
    now := 7 }

/-- C7 witness: extracted text "TEXT" with limit 2 sends "P\n\nTE" to the
API yet records char count 4. -/
theorem c7_truncated_api_input_full_char_count_witness :
    (pyEndsWith (pyLower wFilePdf.filename) ".pdf" = true ∧
      check_cache wDbEmpty (wEnvMiss.hash wFilePdf.content) (some 1) = none ∧
      wEnvMiss.extract wFilePdf.content = Except.ok ("TEXT", 2) ∧
      wEnvMiss.api ("P" ++ "\n\n" ++ "TEXT".take wEnvMiss.maxTextLength) =
        Except.ok "S:P\n\nTE") ∧
    ((index_post wEnvMiss "s" (some 1) "P" wDbEmpty [] [wFilePdf]).apiLog =
      ["P" ++ "\n\n" ++ "TEXT".take wEnvMiss.maxTextLength] ∧
    (index_post wEnvMiss "s" (some 1) "P" wDbEmpty [] [wFilePdf]).error = none ∧
    ∃ s',
      (index_post wEnvMiss "s" (some 1) "P" wDbEmpty [] [wFilePdf]).db.summaries =
        wDbEmpty.summaries ++ [s'] ∧
      s'.char_count = "TEXT".length ∧
      s'.summary_text = "S:P\n\nTE" ∧
      s'.page_count = 2) :=
  ⟨⟨by decide, by decide, rfl, rfl⟩,
    c7_truncated_api_input_full_char_count wEnvMiss "s" (some 1) "P" wDbEmpty [] wFilePdf
      "TEXT" 2 "S:P\n\nTE" (by decide) (by decide) rfl rfl⟩

/-- Fixture: an environment in which every collaborator succeeds. -/
def wEnvOk : Env :=
  { hash := fun _ => "DY"
    extract := fun _ => Except.ok ("TXT", 1)
    api := fun s => Except.ok s
    maxTextLength := 10
    default_prompt_text := "DP"
    now := 0 }

/-- Fixture: a form part with an empty filename, as a browser sends when no
file is selected. -/
def wFileEmptyName : FileInput :=
  { filename := ""
    content := [7]
    saved_path := "up/e.pdf"
    unique_filename := "e.pdf" }

/-- C8 counterexample: an empty filename does not end in `.pdf`, yet when
such a part comes first the whole submission is rejected as "No files
selected": there is no per-file warning and the remaining valid PDF of the
batch — which alone would be processed — is not processed at all. -/
theorem c8_counterexample_empty_first_aborts_batch :
    pyEndsWith (pyLower wFileEmptyName.filename) ".pdf" = false ∧
    (index_post wEnvOk "s" (some 1) "P" wDbEmpty [] [wFileEmptyName, wFilePdf]).warnings = [] ∧
    (index_post wEnvOk "s" (some 1) "P" wDbEmpty [] [wFileEmptyName, wFilePdf]).processed_ids
      = [] ∧
    (index_post wEnvOk "s" (some 1) "P" wDbEmpty [] [wFileEmptyName, wFilePdf]).db = wDbEmpty ∧
    (index_post wEnvOk "s" (some 1) "P" wDbEmpty [] [wFileEmptyName, wFilePdf]).store = [] ∧
    (index_post wEnvOk "s" (some 1) "P" wDbEmpty [] [wFilePdf]).processed_ids = [1] := by
  decide

/-- C8 as amended: inside the batch loop, a file whose (lower-cased)
filename does not end in `.pdf` is skipped with exactly one per-file
warning — no database row, no stored byte, no collaborator call — and the
loop carries on with the remaining files of the batch unchanged. -/
theorem c8_non_pdf_skipped_batch_continues (env : Env) (sid : String) (tid : Option Nat)
    (prompt : String) (st : LoopState) (f : FileInput) (rest : List FileInput)
    (h : pyEndsWith (pyLower f.filename) ".pdf" = false) :
    processOne env sid tid prompt st f = Except.ok { st with
      warnings := st.warnings ++ ["Skipped " ++ f.filename ++ ": Only PDF files are allowed"] } ∧
    processFiles env sid tid prompt st (f :: rest) =
      processFiles env sid tid prompt { st with
        warnings := st.warnings ++ ["Skipped " ++ f.filename ++ ": Only PDF files are allowed"] }
        rest := by
  have hskip : f.filename = "" ∨ ¬ (pyEndsWith (pyLower f.filename) ".pdf" = true) :=
    Or.inr (by simp [h])
  have h1 := processOne_skip env sid tid prompt st f hskip
  refine ⟨h1, ?_⟩
  rw [processFiles, h1]

/-- Fixture: a text file submitted alongside PDFs. -/
def wFileTxt : FileInput :=
  { filename := "c.txt"
    content := [9]
    saved_path := "up/c.txt"
    unique_filename := "c.txt" }

/-- C8 witness: "c.txt" is skipped with one warning and the loop state is
otherwise untouched, after which the loop proceeds with the rest. -/
theorem c8_non_pdf_skipped_batch_continues_witness :
    pyEndsWith (pyLower wFileTxt.filename) ".pdf" = false ∧
    (processOne wEnvOk "s" (some 1) "P" (initState wDbEmpty []) wFileTxt =
      Except.ok { (initState wDbEmpty []) with
        warnings := (initState wDbEmpty []).warnings ++
          ["Skipped " ++ wFileTxt.filename ++ ": Only PDF files are allowed"] } ∧
    processFiles wEnvOk "s" (some 1) "P" (initState wDbEmpty []) (wFileTxt :: [wFilePdf]) =
      processFiles wEnvOk "s" (some 1) "P" { (initState wDbEmpty []) with
        warnings := (initState wDbEmpty []).warnings ++
          ["Skipped " ++ wFileTxt.filename ++ ": Only PDF files are allowed"] } [wFilePdf]) :=
  ⟨by decide,
    c8_non_pdf_skipped_batch_continues wEnvOk "s" (some 1) "P" (initState wDbEmpty [])
      wFileTxt [wFilePdf] (by decide)⟩

/-- C3 evidence: on an unknown summary id the download route does not
produce a distinct 404: the `abort(404)` raises `NotFound`, a subclass of
`Exception`, which the route's own catch-all handler converts into a
flashed error and a 302 redirect to the index page. -/
theorem c3_download_unknown_id_not_404 :
    download_summary wDbEmpty 99999 =
      DownloadResponse.redirectIndex "Error downloading summary: 404 Not Found" ∧
    download_summary wDbEmpty 99999 ≠ DownloadResponse.notFound := by
  constructor
  · rfl
  · decide

/-- Database well-formedness maintained by the pipeline: primary keys stay
below the auto-increment counters, upload ids are distinct, and every
upload carries at most one summary (ingestion creates exactly one summary
per upload row).  The hypotheses of the cache-hit and retention claims are
instances of this invariant. -/
def DBWellFormed (db : DB) : Prop :=
  (∀ u ∈ db.uploads, u.id < db.nextUploadId) ∧
  (∀ s ∈ db.summaries, s.upload_id < db.nextUploadId) ∧
  (db.uploads.map (fun u => u.id)).Nodup ∧
  (∀ u ∈ db.uploads, (summariesOf db u.id).length ≤ 1)

/-- Adding one upload under the fresh id together with one summary owned by
it preserves well-formedness. -/
theorem addUpload_addSummary_wf (db : DB) (u : Upload) (s : Summary)
    (hu : u.id = db.nextUploadId) (hs : s.upload_id = u.id)
    (hwf : DBWellFormed db) : DBWellFormed ((db.addUpload u).addSummary s) := by
  obtain ⟨h1, h2, h3, h4⟩ := hwf
  have hfilter : ∀ uid, summariesOf ((db.addUpload u).addSummary s) uid =
      summariesOf db uid ++ List.filter (fun t => t.upload_id == uid) [s] := by
    intro uid
    simp [summariesOf, DB.addUpload, DB.addSummary]
  refine ⟨?_, ?_, ?_, ?_⟩
  · intro v hv
    simp only [DB.addUpload, DB.addSummary, List.mem_append, List.mem_singleton] at hv
    rcases hv with hv | rfl
    · exact Nat.lt_succ_of_lt (h1 v hv)
    · rw [hu]
      exact Nat.lt_succ_self _
  · intro t ht
    simp only [DB.addUpload, DB.addSummary, List.mem_append, List.mem_singleton] at ht
    rcases ht with ht | rfl
    · exact Nat.lt_succ_of_lt (h2 t ht)
    · rw [hs, hu]
      exact Nat.lt_succ_self _
  · show ((db.uploads ++ [u]).map (fun v => v.id)).Nodup
    rw [List.map_append, List.nodup_append]
    refine ⟨h3, by simp, ?_⟩
    intro a ha hb
    rcases List.mem_map.mp ha with ⟨v, hv, rfl⟩
    simp only [List.map_cons, List.map_nil, List.mem_singleton] at hb
    have hlt := h1 v hv
    rw [hb, hu] at hlt
    exact absurd hlt (lt_irrefl _)
  · intro v hv
    simp only [DB.addUpload, DB.addSummary, List.mem_append, List.mem_singleton] at hv
    rcases hv with hv | rfl
    · rw [hfilter]
      have hne : (s.upload_id == v.id) = false := by
        have hlt := h1 v hv
        rw [hs, hu]
        simp only [beq_eq_false_iff_ne]
        omega
      have hdrop : List.filter (fun t => t.upload_id == v.id) [s] = [] := by
        simp [List.filter, hne]
      rw [hdrop, List.append_nil]
      exact h4 v hv
    · rw [hfilter]
      have hempty : summariesOf db v.id = [] := by
        apply List.filter_eq_nil_iff.mpr
        intro t ht
        have hlt := h2 t ht
        rw [hu]
        simp only [beq_iff_eq]
        omega
      have hkeep : List.filter (fun t => t.upload_id == v.id) [s] = [s] := by
        simp [hs]
      rw [hempty, hkeep]
      simp

/-- Any successful loop iteration preserves database well-formedness. -/
theorem processOne_preserves_wf (env : Env) (sid : String) (tid : Option Nat) (prompt : String)
    (st : LoopState) (f : FileInput) (st' : LoopState)
    (h : processOne env sid tid prompt st f = Except.ok st')
    (hwf : DBWellFormed st.db) : DBWellFormed st'.db := by
  unfold processOne at h
  split at h
  · injection h with h
    subst h
    exact hwf
  · dsimp only at h
    split at h
    · split at h
      · exact absurd h (by simp)
      · injection h with h
        subst h
        exact addUpload_addSummary_wf st.db _ _ rfl rfl hwf
    · split at h
      · exact absurd h (by simp)
      · split at h
        · exact absurd h (by simp)
        · injection h with h
          subst h
          exact addUpload_addSummary_wf st.db _ _ rfl rfl hwf

/-- The whole batch loop preserves database well-formedness. -/
theorem processFiles_preserves_wf (env : Env) (sid : String) (tid : Option Nat)
    (prompt : String) (files : List FileInput) :
    ∀ st st', processFiles env sid tid prompt st files = Except.ok st' →
      DBWellFormed st.db → DBWellFormed st'.db := by
  induction files with
  | nil =>
    intro st st' h hwf
    rw [processFiles] at h
    injection h with h
    subst h
    exact hwf
  | cons f rest ih =>
    intro st st' h hwf
    rw [processFiles] at h
    rcases hstep : processOne env sid tid prompt st f with st1 | st1
    · rw [hstep] at h
      exact absurd h (by simp)
    · rw [hstep] at h
      exact ih st1 st' h (processOne_preserves_wf env sid tid prompt st f st1 hstep hwf)

/-- The index route preserves database well-formedness: on a commit the new
rows keep the invariant, and on a rollback the database is untouched. -/
theorem index_post_preserves_wf (env : Env) (sid : String) (tid : Option Nat)
    (prompt : String) (db : DB) (store : FileStore) (files : List FileInput)
    (hwf : DBWellFormed db) :
    DBWellFormed (index_post env sid tid prompt db store files).db := by
  rcases files with _ | ⟨f0, rest⟩
  · exact hwf
  · by_cases hname : f0.filename = ""
    · unfold index_post
      dsimp only
      rw [if_pos hname]
      exact hwf
    · unfold index_post
      dsimp only
      rw [if_neg hname]
      rcases hp : processFiles env sid tid prompt (initState db store) (f0 :: rest)
        with st | st
      · exact hwf
      · exact processFiles_preserves_wf env sid tid prompt (f0 :: rest)
          (initState db store) st hp hwf

/-- C4 witness: the lookup of digest `D1` and template 5 hits the cached
upload, whose digest matches and whose summary list is non-empty with a
matching summary. -/
theorem c4_check_cache_hit_shape_witness :
    check_cache wDbCached "D1" (some 5) = some wUpCached ∧
    (wUpCached ∈ wDbCached.uploads ∧ wUpCached.file_hash = "D1" ∧
      summariesOf wDbCached wUpCached.id ≠ [] ∧
      ∃ s ∈ summariesOf wDbCached wUpCached.id, s.prompt_template_id = some 5) :=
  ⟨by decide, c4_check_cache_hit_shape wDbCached "D1" (some 5) wUpCached (by decide)⟩

/-- Fixture: a database whose only `D1` upload carries two summaries, the
first for template 6 and the second for template 5. -/
def wDbTwoSummaries : DB :=
  { uploads := [wUpCached]
    summaries := [⟨1, 1, some 6, "S1", 0, 1, 1⟩, ⟨2, 1, some 5, "S2", 0, 1, 1⟩]
    nextUploadId := 2
    nextSummaryId := 3 }

/-- C9 witness: although the upload's second summary is for template 5, the
lookup for template 5 skips the upload because its first summary is for
template 6. -/
theorem c9_check_cache_first_summary_only_witness :
    (wUpCached ∈ wDbTwoSummaries.uploads ∧ wUpCached.file_hash = "D1" ∧
      summariesOf wDbTwoSummaries wUpCached.id =
        ⟨1, 1, some 6, "S1", 0, 1, 1⟩ :: [⟨2, 1, some 5, "S2", 0, 1, 1⟩] ∧
      (Summary.prompt_template_id ⟨1, 1, some 6, "S1", 0, 1, 1⟩ ≠ some 5) ∧
      (⟨2, 1, some 5, "S2", 0, 1, 1⟩ : Summary) ∈ [(⟨2, 1, some 5, "S2", 0, 1, 1⟩ : Summary)] ∧
      Summary.prompt_template_id ⟨2, 1, some 5, "S2", 0, 1, 1⟩ = some 5) ∧
    check_cache wDbTwoSummaries "D1" (some 5) ≠ some wUpCached :=
  ⟨⟨by decide, by decide, by decide, by decide, by decide, by decide⟩,
    c9_check_cache_first_summary_only wDbTwoSummaries "D1" (some 5) wUpCached
      ⟨1, 1, some 6, "S1", 0, 1, 1⟩ [⟨2, 1, some 5, "S2", 0, 1, 1⟩]
      ⟨2, 1, some 5, "S2", 0, 1, 1⟩
      (by decide) (by decide) (by decide) (by decide) (by decide) (by decide)⟩
